import Mathlib

/-!
Verification of the workspace migration tool (`main.py` / `migrator.py`).

The Python source is shallowly embedded below: each method of the
`Migrator` class becomes an executable Lean function over explicit state.
Network calls are modelled by explicit data (the source backend's
workspaces, state versions and variables; the secret store; the target
backend's workspace list), and the per-run mutable state of the migrator
(created workspaces, created state versions, created variables, issued
locks, patched files, the `migrated_cdktf_mains` set and the console log)
is threaded through the pipeline as a record.
-/

set_option autoImplicit false
set_option maxRecDepth 16384

namespace Migrate

/-- Python string `<`: lexicographic comparison of code points, shorter
string is smaller when it is a proper prefix (`"1.5.10" < "1.5.7"`). -/
def pyCharListLt : List Char → List Char → Bool
  | [], [] => false
  | [], _ :: _ => true
  | _ :: _, [] => false
  | a :: as, b :: bs =>
    if a.val < b.val then true
    else if b.val < a.val then false
    else pyCharListLt as bs

/-- Python `a < b` on strings. -/
def pyStrLt (a b : String) : Bool := pyCharListLt a.data b.data

/-- Python `a > b` on strings. -/
def pyStrGt (a b : String) : Bool := pyStrLt b a

/-- Python `s.replace("~>", "")`: remove every (leftmost, non-overlapping)
occurrence of the two-character pattern. -/
def stripTAList : List Char → List Char
  | [] => []
  | '~' :: '>' :: rest => stripTAList rest
  | c :: rest => c :: stripTAList rest

/-- `terraform_version.replace("~>", "")` at the `String` level. -/
def stripTA (s : String) : String := String.mk (stripTAList s.data)

/-- Python `s.split("-")`, auxiliary accumulator form. -/
def splitDashAux : List Char → List Char → List (List Char)
  | [], acc => [acc.reverse]
  | c :: rest, acc =>
    if c = '-' then acc.reverse :: splitDashAux rest []
    else splitDashAux rest (c :: acc)

/-- Python `s.split("-")` (always returns at least one segment). -/
def pySplitDash (s : String) : List String := (splitDashAux s.data []).map String.mk

/-- Python `s.split("-")[-1]`. -/
def lastDashSegment (s : String) : String := (pySplitDash s).getLastD ""

/-- Python dict update `d[k] = v`: replace the value at the first matching
key keeping its position (insertion order preserved), else append. -/
def setA {α : Type} (xs : List (String × α)) (k : String) (v : α) : List (String × α) :=
  match xs with
  | [] => [(k, v)]
  | (k', v') :: rest => if k' = k then (k, v) :: rest else (k', v') :: setA rest k v

/-- Python dict read `d.get(k, dflt)`. -/
def lookupD {α : Type} (xs : List (String × α)) (k : String) (dflt : α) : α :=
  (List.lookup k xs).getD dflt

/-- Python `f.readlines()`, auxiliary accumulator form: split after each
newline, keeping the newline at the end of the line. -/
def readlinesAux : List Char → List Char → List (List Char)
  | [], acc => if acc.isEmpty then [] else [acc.reverse]
  | c :: rest, acc =>
    if c = '\n' then (acc.reverse ++ ['\n']) :: readlinesAux rest []
    else readlinesAux rest (c :: acc)

/-- Python `f.readlines()` on a text file's content. -/
def readlines (cs : List Char) : List (List Char) := readlinesAux cs []

/-- Concatenate lines back, Python `"".join(content)`. -/
def joinAll (ls : List (List Char)) : List Char := ls.flatten

/-- Python `list.insert(i, x)`. -/
def pyInsert {α : Type} (xs : List α) (i : Nat) (x : α) : List α :=
  xs.take i ++ [x] ++ xs.drop i

/-- The effect of `f.seek(0, 0); f.write(new)` on a file opened `"r+"`:
the new text overwrites the old from position 0, but the file is never
truncated, so any old content beyond the length of the new text remains. -/
def overwrite (old new : List Char) : List Char := new ++ old.drop new.length

/-! ### Base64 (`binascii.b2a_base64` / `binascii.a2b_base64`) -/

/-- The base64 alphabet: 6-bit value to ASCII code. -/
def b64char (n : Nat) : Nat :=
  if n < 26 then 65 + n
  else if n < 52 then 97 + (n - 26)
  else if n < 62 then 48 + (n - 52)
  else if n = 62 then 43
  else 47

/-- Inverse alphabet: ASCII code to 6-bit value. -/
def b64val (c : Nat) : Nat :=
  if 65 ≤ c ∧ c ≤ 90 then c - 65
  else if 97 ≤ c ∧ c ≤ 122 then 26 + (c - 97)
  else if 48 ≤ c ∧ c ≤ 57 then 52 + (c - 48)
  else if c = 43 then 62
  else 63

/-- Membership in the base64 alphabet (`=` and `\n` are not members). -/
def isB64 (c : Nat) : Bool :=
  (65 ≤ c && c ≤ 90) || (97 ≤ c && c ≤ 122) || (48 ≤ c && c ≤ 57) || c == 43 || c == 47

/-- Core of `binascii.b2a_base64`: encode 3-byte groups to 4 alphabet
characters, padding a trailing 1- or 2-byte group with `=` (ASCII 61). -/
def b2aCore : List Nat → List Nat
  | b0 :: b1 :: b2 :: rest =>
    b64char (b0 / 4) :: b64char (b0 % 4 * 16 + b1 / 16) ::
      b64char (b1 % 16 * 4 + b2 / 64) :: b64char (b2 % 64) :: b2aCore rest
  | [b0, b1] => [b64char (b0 / 4), b64char (b0 % 4 * 16 + b1 / 16), b64char (b1 % 16 * 4), 61]
  | [b0] => [b64char (b0 / 4), b64char (b0 % 4 * 16), 61, 61]
  | [] => []

/-- `binascii.b2a_base64(bs)`: padded base64 followed by a newline. -/
def b2a_base64 (bs : List Nat) : List Nat := b2aCore bs ++ [10]

/-- Decode groups of 4 alphabet characters to 3 bytes; a trailing group of
3 (resp. 2) characters decodes to 2 (resp. 1) bytes. -/
def decQuads : List Nat → List Nat
  | c0 :: c1 :: c2 :: c3 :: rest =>
    (b64val c0 * 4 + b64val c1 / 16) :: (b64val c1 % 16 * 16 + b64val c2 / 4) ::
      (b64val c2 % 4 * 64 + b64val c3) :: decQuads rest
  | [c0, c1, c2] => [b64val c0 * 4 + b64val c1 / 16, b64val c1 % 16 * 16 + b64val c2 / 4]
  | [c0, c1] => [b64val c0 * 4 + b64val c1 / 16]
  | _ => []

/-- `binascii.a2b_base64(cs)`: characters outside the alphabet (padding,
newlines) are ignored, then 4-character groups are decoded. -/
def a2b_base64 (cs : List Nat) : List Nat := decQuads (cs.filter fun c => isB64 c)

/-- MD5 digests (`hashlib.md5(x).hexdigest()`) are modelled as an opaquely
tagged copy of the hashed bytes: two digests are equal exactly when the
hashed inputs are equal. -/
inductive Digest : Type where
  | md5 (input : List Nat)
  deriving DecidableEq, Repr

/-! ### Data model -/

/-- The `vcs-repo` attribute of a source (TFC) workspace. -/
structure VcsRepo where
  display_identifier : String
  deriving DecidableEq, Repr

/-- `attributes` of a source workspace as returned by the TFC API. -/
structure TFWorkspaceAttrs where
  name : String
  terraform_version : String
  locked : Bool
  resource_count : Nat
  auto_apply : Bool
  operations : Bool
  working_directory : String
  vcs_repo : Option VcsRepo
  deriving DecidableEq, Repr

/-- A source workspace document (`id` plus `attributes`). -/
structure TFWorkspace where
  id : String
  attributes : TFWorkspaceAttrs
  deriving DecidableEq, Repr

/-- A workspace existing in the target (Scalr) backend. -/
structure ScalrWs where
  id : String
  name : String
  env_id : String
  deriving DecidableEq, Repr

/-- The `vcs-repo` attribute block of a `POST workspaces` request. -/
structure VcsRepoReq where
  identifier : String
  branch : String
  dry_runs_enabled : Bool
  trigger_prefixes : List String
  deriving DecidableEq, Repr

/-- The body of a `POST workspaces` request built by `create_workspace`. -/
structure WorkspaceReq where
  name : String
  deletion_protection_enabled : Bool
  auto_apply : Bool
  operations : Bool
  terraform_version : String
  working_directory : String
  vcs_repo : Option VcsRepoReq
  environment_id : String
  vcs_provider : Option String
  deriving DecidableEq, Repr

/-- The latest state version of a source workspace: its `serial`
attribute, the raw payload downloaded from `hosted-state-download-url`,
and the `lineage` field that `raw_state.json()["lineage"]` reads out of
that payload. -/
structure StateVersionSrc where
  serial : Nat
  payload : List Nat
  lineage : String
  deriving DecidableEq, Repr

/-- The body of a `POST state-versions` request built by `create_state`. -/
structure StateVersionReq where
  serial : Nat
  md5 : Digest
  lineage : String
  state : List Nat
  workspace_id : String
  deriving DecidableEq, Repr

/-- A variable of a source workspace as returned by the TFC `vars` API. -/
structure TFVar where
  key : String
  value : String
  category : String
  sensitive : Bool
  description : Option String
  deriving DecidableEq, Repr

/-- The body of a `POST vars` request built by `create_variable`. -/
structure VarReq where
  key : String
  value : String
  category : String
  sensitive : Bool
  description : Option String
  workspace_id : String
  deriving DecidableEq, Repr

/-- JSON documents (`json.load` / `json.dumps`). -/
inductive JValue : Type where
  | jstr (s : String)
  | jnum (n : Int)
  | jbool (b : Bool)
  | jnull
  | jarr (xs : List JValue)
  | jobj (fields : List (String × JValue))
  deriving Inhabited

/-- The run configuration of the `Migrator` object: constructor arguments
plus the environment directory fetched by `fetch_environments` and the
project directories found by `find_cdktf_paths`. -/
structure Config where
  scalr_hostname : String
  vcs_id : String
  lock : Bool
  environments : List (String × String)
  cdktf_paths : List (String × String)

/-- The source backend's data reachable by the migrator, keyed by
workspace name: the latest state version (`page[size] = 1`, absent when
the workspace has no state), the variable list, and the secret store's
key/value pairs scoped to the workspace. -/
structure SourceData where
  state_versions : List (String × StateVersionSrc)
  vars : List (String × List TFVar)
  secrets : List (String × List (String × String))

/-- The mutable state threaded through a run: the target backend's
workspace list (pre-existing plus created), every request issued, the
local files, the `migrated_cdktf_mains` set, the number of secret-store
fetches, the id counter for created workspaces, and the console log. -/
structure MState where
  scalrWorkspaces : List ScalrWs
  created_workspaces : List WorkspaceReq
  created_states : List StateVersionReq
  created_vars : List VarReq
  tfc_locks : List (String × String)
  files : List (String × List Char)
  json_files : List (String × (List Char × JValue))
  migrated_cdktf_mains : List String
  secret_fetches : Nat
  next_id : Nat
  log : List String

/-- Append a console message (`tqdm.write`). -/
def addLog (st : MState) (msg : String) : MState := { st with log := st.log ++ [msg] }

/-! ### JSON serialization (`json.dumps(cdktf, indent=2)`) -/

/-- Escape one character inside a JSON string literal. -/
def jescChar (c : Char) : String :=
  if c = '"' then "\\\""
  else if c = '\\' then "\\\\"
  else if c = '\n' then "\\n"
  else if c = '\t' then "\\t"
  else if c = '\r' then "\\r"
  else String.singleton c

/-- Escape a JSON string body. -/
def jesc (s : String) : String := String.join (s.data.map jescChar)

/-- A JSON string literal. -/
def jquote (s : String) : String := "\"" ++ jesc s ++ "\""

/-- `indent=2`: two spaces per nesting level. -/
def jindent (lvl : Nat) : String := String.mk (List.replicate (2 * lvl) ' ')

mutual

/-- `json.dumps(v, indent=2)` at nesting level `lvl`. -/
def dumpsV (lvl : Nat) : JValue → String
  | .jstr s => jquote s
  | .jnum n => toString n
  | .jbool b => if b then "true" else "false"
  | .jnull => "null"
  | .jarr xs =>
    if xs.isEmpty then "[]"
    else "[\n" ++ dumpsArr (lvl + 1) xs ++ "\n" ++ jindent lvl ++ "]"
  | .jobj fs =>
    if fs.isEmpty then "\x7b\x7d"
    else "\x7b\n" ++ dumpsObj (lvl + 1) fs ++ "\n" ++ jindent lvl ++ "\x7d"

/-- Array elements, one per line, separated by commas. -/
def dumpsArr (lvl : Nat) : List JValue → String
  | [] => ""
  | [x] => jindent lvl ++ dumpsV lvl x
  | x :: y :: rest => jindent lvl ++ dumpsV lvl x ++ ",\n" ++ dumpsArr lvl (y :: rest)

/-- Object members, one per line, separated by commas. -/
def dumpsObj (lvl : Nat) : List (String × JValue) → String
  | [] => ""
  | [(k, v)] => jindent lvl ++ jquote k ++ ": " ++ dumpsV lvl v
  | (k, v) :: m :: rest => jindent lvl ++ jquote k ++ ": " ++ dumpsV lvl v ++ ",\n" ++ dumpsObj lvl (m :: rest)

end

/-- Python `obj[k]` on a parsed JSON value (raises `KeyError` /
`TypeError`). -/
def getObjKey (v : JValue) (k : String) : Except String JValue :=
  match v with
  | .jobj fields =>
    match List.lookup k fields with
    | some x => Except.ok x
    | none => Except.error ("KeyError: " ++ k)
  | _ => Except.error ("TypeError: value is not a dict: " ++ k)

/-- Python `obj[p1][p2]...[k] = x`: navigate through nested dicts and set
the final key (in place for an existing key, appended otherwise). -/
def setPath : JValue → List String → String → JValue → Except String JValue
  | v, [], k, x =>
    match v with
    | .jobj fields => Except.ok (.jobj (setA fields k x))
    | _ => Except.error ("TypeError: value is not a dict: " ++ k)
  | v, p :: rest, k, x => do
    let child ← getObjKey v p
    let child' ← setPath child rest k x
    match v with
    | .jobj fields => Except.ok (.jobj (setA fields p child'))
    | _ => Except.error ("TypeError: value is not a dict: " ++ p)

/-! ### The migrator pipeline -/

/-- `Migrator.create_workspace`: build the target-workspace creation
request.  The environment relationship is derived from the trailing
`-account` name segment (a `KeyError` if the environment directory has no
such entry), then the Terraform version is checked against the `"1.5.7"`
ceiling with a plain Python string comparison (no `~>` stripping here).
The `vcs-repo` block and the `vcs-provider` relationship are attached
exactly when the source workspace has a `vcs-repo`. -/
def create_workspace (cfg : Config) (tf_workspace : TFWorkspace) : Except String WorkspaceReq :=
  let attributes := tf_workspace.attributes
  let name := attributes.name
  let account := lastDashSegment name
  match List.lookup account cfg.environments with
  | none => Except.error ("KeyError: " ++ account)
  | some envId =>
    let terraform_version := attributes.terraform_version
    if pyStrGt terraform_version "1.5.7" then
      Except.error ("Unsupported Terraform version: " ++ terraform_version)
    else
      Except.ok
        { name := name
          deletion_protection_enabled := true
          auto_apply := attributes.auto_apply
          operations := attributes.operations
          terraform_version := attributes.terraform_version
          working_directory := attributes.working_directory
          vcs_repo :=
            match attributes.vcs_repo with
            | some repo =>
              some { identifier := repo.display_identifier
                     branch := "main"
                     dry_runs_enabled := false
                     trigger_prefixes := [attributes.working_directory] }
            | none => none
          environment_id := envId
          vcs_provider :=
            match attributes.vcs_repo with
            | some _ => some cfg.vcs_id
            | none => none }

/-- `Migrator.create_state`: download the raw payload, base64-armor it,
md5 the decoded copy, and carry serial and lineage over. -/
def create_state (tfc_state : StateVersionSrc) (workspace_id : String) : StateVersionReq :=
  let raw_state := tfc_state.payload
  let encoded_state := b2a_base64 raw_state
  let decoded := a2b_base64 encoded_state
  { serial := tfc_state.serial
    md5 := Digest.md5 decoded
    lineage := tfc_state.lineage
    state := encoded_state
    workspace_id := workspace_id }

/-- `Migrator.migrate_state`: fetch the most recent state version
(`page[size] = 1`) and create it in the target; a workspace without any
state version contributes nothing. -/
def migrate_state (src : SourceData) (workspace_id workspace_name : String) :
    List StateVersionReq :=
  match List.lookup workspace_name src.state_versions with
  | none => []
  | some sv => [create_state sv workspace_id]

/-- The `for api_var in tfc_vars` loop of `Migrator.migrate_variables`:
non-sensitive variables are copied verbatim, sensitive ones take their
value from the resolved secret set; a sensitive key absent from the
secrets raises (`KeyError`), keeping the variables already created. -/
def create_vars_loop (workspace_id : String) (secrets : List (String × String)) :
    List TFVar → List VarReq × Option String
  | [] => ([], none)
  | v :: rest =>
    if v.sensitive then
      match List.lookup v.key secrets with
      | none => ([], some ("KeyError: " ++ v.key))
      | some secret_value =>
        let r := create_vars_loop workspace_id secrets rest
        ({ key := v.key, value := secret_value, category := v.category, sensitive := true,
           description := v.description, workspace_id := workspace_id } :: r.1, r.2)
    else
      let r := create_vars_loop workspace_id secrets rest
      ({ key := v.key, value := v.value, category := v.category, sensitive := false,
         description := v.description, workspace_id := workspace_id } :: r.1, r.2)

/-- `Migrator.migrate_variables`: fetch the workspace's variables, fetch
the secret store once iff any variable is sensitive, then create each
variable.  Returns the created requests, the number of secret-store
fetches performed, and the error if one was raised. -/
def migrate_variables (src : SourceData) (workspace_id workspace_name : String) :
    List VarReq × Nat × Option String :=
  let tfc_vars := lookupD src.vars workspace_name []
  let fetches := if tfc_vars.any fun v => v.sensitive then 1 else 0
  let secrets :=
    if tfc_vars.any fun v => v.sensitive then lookupD src.secrets workspace_name [] else []
  let r := create_vars_loop workspace_id secrets tfc_vars
  (r.1, fetches, r.2)

/-- `Migrator.lock_tfc_workspace`: lock the source workspace when run-wide
locking is enabled and it is not already locked. -/
def lock_tfc_workspace (cfg : Config) (st : MState) (tf_workspace : TFWorkspace) : MState :=
  if cfg.lock && !tf_workspace.attributes.locked then
    { st with tfc_locks := st.tfc_locks ++ [(tf_workspace.id, "Locked by migrator")] }
  else st

/-- The `inject_js` fragment built at the top of `Migrator.migrate_cdktf`
(one entry per environment, then the per-stack override code). -/
def inject_js (cfg : Config) : List Char :=
  let js_environments := cfg.environments.map fun kv =>
    "        " ++ kv.1 ++ ": \x27" ++ kv.2 ++ "\x27,"
  let joined := String.intercalate "\n" js_environments
  ("\n// THIS IS A TEMPORARY INJECTION\napp.node.children.forEach((stack) => \x7b\n    const scalrEnvironments = \x7b\n"
    ++ joined
    ++ "\n    \x7d\n    const infraStack = stack as InfraStack\n    const environment = scalrEnvironments[infraStack.configuration.awsConfiguration.accountLabel]\n    infraStack.addOverride(\x27terraform.backend.remote.hostname\x27, \x27"
    ++ cfg.scalr_hostname
    ++ "\x27)\n    infraStack.addOverride(\x27terraform.backend.remote.organization\x27, environment)\n\x7d)\n// END OF TEMPORARY INJECTION\n").data

/-- `content.index("app.synth()\n")` with the `except ValueError` fallback
to `content.index("app.synth()")`. -/
def markerIndex (lines : List (List Char)) : Option Nat :=
  match lines.findIdx? fun l => l == "app.synth()\n".data with
  | some i => some i
  | none => lines.findIdx? fun l => l == "app.synth()".data

/-- The `cdk.tf.json` patch at the end of `Migrator.migrate_cdktf`: load
the generated file, overwrite the backend hostname and organization,
inject the overrides annotation, and write the serialization back from
position 0 (without truncating). -/
def patch_cdktf_json (cfg : Config) (st : MState) (projectName envName accountLabel : String) :
    MState × Option String :=
  match List.lookup projectName cfg.cdktf_paths with
  | none => (st, some ("KeyError: " ++ projectName))
  | some dir =>
    let path := dir ++ "/cdktf.out/stacks/" ++ envName ++ "-" ++ accountLabel ++ "/cdk.tf.json"
    match List.lookup path st.json_files with
    | none => (st, some ("FileNotFoundError: " ++ path))
    | some fileData =>
      let content := fileData.1
      let cdktf := fileData.2
      match setPath cdktf ["terraform", "backend", "remote"] "hostname" (.jstr cfg.scalr_hostname) with
      | .error e => (st, some e)
      | .ok d1 =>
        match List.lookup accountLabel cfg.environments with
        | none => (st, some ("KeyError: " ++ accountLabel))
        | some org =>
          match setPath d1 ["terraform", "backend", "remote"] "organization" (.jstr org) with
          | .error e => (st, some e)
          | .ok d2 =>
            match setPath d2 ["//", "metadata"] "overrides"
                (.jobj [("stack", .jarr [.jstr "terraform"])]) with
            | .error e => (st, some e)
            | .ok d3 =>
              let newContent := overwrite content (dumpsV 0 d3).data
              ({ st with json_files := setA st.json_files path (newContent, d3) }, none)

/-- The destructuring assignment
`[projectName, envName, accountLabel] = workspace_name.split("-")`:
succeeds exactly when the name has three dash-separated segments, raising
`ValueError` otherwise. -/
def unpack3 (name : String) : Option (String × String × String) :=
  match pySplitDash name with
  | [projectName, envName, accountLabel] => some (projectName, envName, accountLabel)
  | _ => none

/-- `Migrator.migrate_cdktf`: unpack the workspace name into exactly three
segments (a `ValueError` otherwise), inject the fragment into the
project's `main.ts` right before the `app.synth()` marker unless the
project was already patched this run, then patch the generated
`cdk.tf.json` of the (environment, account) stack. -/
def migrate_cdktf (cfg : Config) (st : MState) (workspace_name : String) :
    MState × Option String :=
  match unpack3 workspace_name with
  | some (projectName, envName, accountLabel) =>
    if projectName ∈ st.migrated_cdktf_mains then
      patch_cdktf_json cfg st projectName envName accountLabel
    else
      match List.lookup projectName cfg.cdktf_paths with
      | none => (st, some ("KeyError: " ++ projectName))
      | some dir =>
        let path := dir ++ "/main.ts"
        match List.lookup path st.files with
        | none => (st, some ("FileNotFoundError: " ++ path))
        | some content =>
          let lines := readlines content
          match markerIndex lines with
          | none => (st, some "ValueError: app.synth() is not in list")
          | some synth_index =>
            let newLines := pyInsert lines synth_index (inject_js cfg)
            let newContent := overwrite content (joinAll newLines)
            let st' := { st with
              files := setA st.files path newContent
              migrated_cdktf_mains := st.migrated_cdktf_mains ++ [projectName] }
            patch_cdktf_json cfg st' projectName envName accountLabel
  | none => (st, some ("ValueError: cannot unpack " ++ workspace_name))

/-- The body of the `try:` block in `Migrator.migrate_workspaces`: skip an
existing workspace, otherwise create it and migrate state, variables,
lock and local artifacts.  Returns the state reached together with the
raised exception, if any (effects performed before the raise persist). -/
def try_block (cfg : Config) (src : SourceData) (st : MState) (tf_workspace : TFWorkspace)
    (workspace_exists : Bool) : MState × Option String :=
  let workspace_name := tf_workspace.attributes.name
  if workspace_exists then
    (addLog st ("Workspace " ++ workspace_name ++ " already exists"), none)
  else
    match create_workspace cfg tf_workspace with
    | .error e => (st, some e)
    | .ok ws_req =>
      let workspace_id := "ws-" ++ toString st.next_id
      let st1 := { st with
        next_id := st.next_id + 1
        scalrWorkspaces := st.scalrWorkspaces ++
          [(ScalrWs.mk workspace_id workspace_name ws_req.environment_id)]
        created_workspaces := st.created_workspaces ++ [ws_req] }
      let st2 := { st1 with
        created_states := st1.created_states ++ migrate_state src workspace_id workspace_name }
      let r := migrate_variables src workspace_id workspace_name
      let st3 := { st2 with
        created_vars := st2.created_vars ++ r.1
        secret_fetches := st2.secret_fetches + r.2.1 }
      match r.2.2 with
      | some e => (st3, some e)
      | none =>
        let st4 := lock_tfc_workspace cfg st3 tf_workspace
        migrate_cdktf cfg st4 workspace_name

/-- The idempotency gate: the target backend is queried for a workspace
with this name inside this environment
(`filter[name]` / `filter[environment]`). -/
def workspace_exists_check (st : MState) (name envId : String) : Bool :=
  st.scalrWorkspaces.any fun sw => sw.name == name && sw.env_id == envId

/-- The version-filter condition of the listing loop:
`terraform_version.replace("~>", "") > "1.5.7"` (Python string
comparison). -/
def versionSkip (v : String) : Bool := pyStrGt (stripTA v) "1.5.7"

/-- One iteration of the `for tf_workspace in tqdm(workspaces)` loop of
`Migrator.migrate_workspaces`.  The three eligibility filters and the
existence query (including the `self.environments[account]` lookup) run
before the `try:` block, so a failing environment lookup is an uncaught
`KeyError` that aborts the whole run (`Except.error`); every exception
inside the `try:` block only adds a per-workspace failure message. -/
def step_workspace (cfg : Config) (src : SourceData) (st : MState) (tf_workspace : TFWorkspace) :
    Except String MState :=
  let attrs := tf_workspace.attributes
  if versionSkip attrs.terraform_version then
    Except.ok (addLog st ("Skipping workspace " ++ attrs.name ++
      " with unsupported Terraform version " ++ attrs.terraform_version))
  else if attrs.locked then
    Except.ok st
  else if attrs.resource_count == 0 then
    Except.ok (addLog st ("Skipping workspace " ++ attrs.name ++ " with no resources"))
  else
    let workspace_name := attrs.name
    let account := lastDashSegment workspace_name
    match List.lookup account cfg.environments with
    | none => Except.error ("KeyError: " ++ account)
    | some envId =>
      let workspace_exists := workspace_exists_check st workspace_name envId
      let r := try_block cfg src st tf_workspace workspace_exists
      match r.2 with
      | none => Except.ok r.1
      | some e =>
        Except.ok (addLog r.1 ("Failed to migrate workspace " ++ workspace_name ++ ": " ++ e))

/-- `Migrator.migrate_workspaces` over the accumulated workspace list:
process each workspace in turn; an exception outside a per-workspace
`try:` block aborts the run. -/
def migrate_workspaces (cfg : Config) (src : SourceData) :
    List TFWorkspace → MState → Except String MState
  | [], st => Except.ok st
  | w :: rest, st =>
    match step_workspace cfg src st w with
    | Except.error e => Except.error e
    | Except.ok st' => migrate_workspaces cfg src rest st'

/-- Evaluate a predicate on the final state of a run (`false` when the
run aborted). -/
def runOk (r : Except String MState) (f : MState → Bool) : Bool :=
  match r with
  | .ok st => f st
  | .error _ => false

/-! ### Definitions taken from the specification's words (for comparison
with the code's behaviour) -/

/-- Split on `.` (for the spec-side numeric version comparison). -/
def splitDotAux : List Char → List Char → List (List Char)
  | [], acc => [acc.reverse]
  | c :: rest, acc =>
    if c = '.' then acc.reverse :: splitDotAux rest []
    else splitDotAux rest (c :: acc)

/-- Digits to a number (for the spec-side numeric version comparison). -/
def parseNatDigits (cs : List Char) : Nat := cs.foldl (fun n c => n * 10 + (c.toNat - 48)) 0

/-- Modelled from the spec: "compare the numeric dotted version" — the
numeric components of a dotted version string. -/
def numericParts (s : String) : List Nat := (splitDotAux s.data []).map parseNatDigits

/-- Lexicographic comparison of numeric component lists. -/
def natListGt : List Nat → List Nat → Bool
  | [], _ => false
  | _ :: _, [] => true
  | a :: as, b :: bs => if a > b then true else if b > a then false else natListGt as bs

/-- Modelled from the spec: a dotted version is numerically greater than
another when its numeric components compare greater. -/
def numericDottedGt (a b : String) : Bool := natListGt (numericParts a) (numericParts b)

/-! ### Derived predicates -/

/-- A workspace survives the three eligibility filters of the listing
loop (version ceiling, lock flag, resource count). -/
def passes_filters (w : TFWorkspace) : Bool :=
  !versionSkip w.attributes.terraform_version && !w.attributes.locked &&
    !(w.attributes.resource_count == 0)

/-- The informational messages a workspace produces when the run performs
no migration work for it: the skip messages of the filters, or the
"already exists" message of the idempotency gate. -/
def skip_messages (w : TFWorkspace) : List String :=
  if versionSkip w.attributes.terraform_version then
    ["Skipping workspace " ++ w.attributes.name ++ " with unsupported Terraform version " ++
      w.attributes.terraform_version]
  else if w.attributes.locked then []
  else if w.attributes.resource_count == 0 then
    ["Skipping workspace " ++ w.attributes.name ++ " with no resources"]
  else ["Workspace " ++ w.attributes.name ++ " already exists"]

/-! ### Concrete fixtures -/

/-- A run configuration with two environments and three projects. -/
def cfgM : Config where
  scalr_hostname := "scalr.example.io"
  vcs_id := "vcs-1"
  lock := true
  environments := [("a1", "env-1"), ("a2", "env-2")]
  cdktf_paths := [("alpha", "/r/projects/alpha"), ("beta", "/r/projects/beta"),
    ("gamma", "/r/projects/gamma")]

/-- `main.ts` of project `alpha`. -/
def mainTsA : List Char := "const app = new App()
app.synth()
".data

/-- `main.ts` of project `gamma`. -/
def mainTsG : List Char := "const app = new App()
extra()
app.synth()
".data

/-- A generated `cdk.tf.json` document. -/
def docStack (org : String) : JValue :=
  .jobj [("terraform", .jobj [("backend", .jobj [("remote",
      .jobj [("hostname", .jstr "app.terraform.io"), ("organization", .jstr org)])])]),
    ("//", .jobj [("metadata", .jobj [("version", .jstr "0.20.3")])])]

/-- Path of a generated `cdk.tf.json`. -/
def pathStack (project env account : String) : String :=
  "/r/projects/" ++ project ++ "/cdktf.out/stacks/" ++ env ++ "-" ++ account ++ "/cdk.tf.json"

/-- The pristine migrator state: empty target backend, no files. -/
def emptySt : MState where
  scalrWorkspaces := []
  created_workspaces := []
  created_states := []
  created_vars := []
  tfc_locks := []
  files := []
  json_files := []
  migrated_cdktf_mains := []
  secret_fetches := 0
  next_id := 0
  log := []

/-- Initial state with the local files of projects `alpha` and `gamma`. -/
def st0 : MState := { emptySt with
  files := [("/r/projects/alpha/main.ts", mainTsA), ("/r/projects/gamma/main.ts", mainTsG)]
  json_files := [
    (pathStack "alpha" "prod" "a1", ((dumpsV 0 (docStack "old-org")).data, docStack "old-org")),
    (pathStack "gamma" "stage" "a2", ((dumpsV 0 (docStack "old-org")).data, docStack "old-org"))] }

/-- Source workspace `alpha-prod-a1` (VCS-bound, at the version ceiling). -/
def w1 : TFWorkspace :=
  { id := "tfc-1", attributes :=
    { name := "alpha-prod-a1", terraform_version := "1.5.7", locked := false,
      resource_count := 3, auto_apply := true, operations := true,
      working_directory := "infra", vcs_repo := some { display_identifier := "org/alpha" } } }

/-- Source workspace `beta-prod-a1` (its only variable is sensitive and
has no secret-store entry). -/
def w2 : TFWorkspace :=
  { id := "tfc-2", attributes :=
    { name := "beta-prod-a1", terraform_version := "1.0.0", locked := false,
      resource_count := 2, auto_apply := false, operations := true,
      working_directory := "", vcs_repo := none } }

/-- Source workspace `gamma-stage-a2`. -/
def w3 : TFWorkspace :=
  { id := "tfc-3", attributes :=
    { name := "gamma-stage-a2", terraform_version := "1.3.2", locked := false,
      resource_count := 1, auto_apply := false, operations := false,
      working_directory := "stacks", vcs_repo := none } }

/-- `alpha-prod-a1` with the two-digit patch version `1.5.10`. -/
def w310 : TFWorkspace :=
  { w1 with attributes := { w1.attributes with terraform_version := "1.5.10" } }

/-- A workspace whose account suffix `aX` resolves to no environment. -/
def wX : TFWorkspace :=
  { id := "tfc-9", attributes :=
    { name := "omega-prod-aX", terraform_version := "1.0.0", locked := false,
      resource_count := 1, auto_apply := false, operations := true,
      working_directory := "", vcs_repo := none } }

/-- A workspace whose name has four dash-separated segments. -/
def w4seg : TFWorkspace :=
  { id := "tfc-4", attributes :=
    { name := "alpha-extra-prod-a1", terraform_version := "1.0.0", locked := false,
      resource_count := 1, auto_apply := false, operations := true,
      working_directory := "", vcs_repo := none } }

/-- A minimal workspace whose creation fails (`~>` version passes the
stripped filter but fails the unstripped check at creation). -/
def wT : TFWorkspace :=
  { id := "tfc-7", attributes :=
    { name := "p-e-a1", terraform_version := "~>1.5.7", locked := false,
      resource_count := 1, auto_apply := false, operations := true,
      working_directory := "", vcs_repo := none } }

/-- The source backend contents for the fixtures above. -/
def srcM : SourceData where
  state_versions := [
    ("alpha-prod-a1", { serial := 7, payload := [1, 2, 3, 4, 255], lineage := "lin-1" }),
    ("beta-prod-a1", { serial := 1, payload := [5], lineage := "lin-2" }),
    ("gamma-stage-a2", { serial := 3, payload := [9, 8, 7], lineage := "lin-3" })]
  vars := [
    ("alpha-prod-a1", [
      { key := "REGION", value := "us-east-1", category := "terraform", sensitive := false,
        description := some "region" },
      { key := "DB_PASS", value := "", category := "env", sensitive := true,
        description := none }]),
    ("beta-prod-a1", [
      { key := "BAD", value := "", category := "env", sensitive := true, description := none }]),
    ("gamma-stage-a2", [
      { key := "SIZE", value := "m5", category := "terraform", sensitive := false,
        description := none }])]
  secrets := [("alpha-prod-a1", [("DB_PASS", "s3cret")])]

/-- A state whose target backend already holds `alpha-prod-a1` in
`env-1`. -/
def stC1 : MState :=
  { emptySt with scalrWorkspaces := [ScalrWs.mk "ws-9" "alpha-prod-a1" "env-1"] }

/-- Initial state for patching two stacks of the same project `alpha`. -/
def st8 : MState := { emptySt with
  files := [("/r/projects/alpha/main.ts", mainTsA)]
  json_files := [
    (pathStack "alpha" "prod" "a1", ((dumpsV 0 (docStack "old-org")).data, docStack "old-org")),
    (pathStack "alpha" "stage" "a2", ((dumpsV 0 (docStack "old-org")).data, docStack "old-org"))] }

/-- A long pre-migration organization name, making the original file
longer than its patched serialization. -/
def longOrg : String := String.mk (List.replicate 200 'x')

/-- The original `cdk.tf.json` document with the long organization. -/
def c9doc : JValue := docStack longOrg

/-- Path of the `alpha`/`prod`/`a1` generated file. -/
def c9path : String := pathStack "alpha" "prod" "a1"

/-- The original on-disk content: the two-space serialization of
`c9doc`, as a generator would have written it. -/
def c9old : List Char := (dumpsV 0 c9doc).data

/-- State for the generated-output patch: project `alpha` already had its
build script patched, so only the `cdk.tf.json` patch runs. -/
def stC9 : MState := { emptySt with
  migrated_cdktf_mains := ["alpha"]
  json_files := [(c9path, (c9old, c9doc))] }

/-- `c9doc` after the patch: hostname and organization overwritten in
place, the overrides annotation appended to the metadata object. -/
def c9docPatched : JValue :=
  .jobj [("terraform", .jobj [("backend", .jobj [("remote",
      .jobj [("hostname", .jstr "scalr.example.io"), ("organization", .jstr "env-1")])])]),
    ("//", .jobj [("metadata", .jobj [("version", .jstr "0.20.3"),
      ("overrides", .jobj [("stack", .jarr [.jstr "terraform"])])])])]

/-! ## Shared lemmas -/

theorem b64val_b64char : ∀ n < 64, b64val (b64char n) = n := by decide

theorem isB64_b64char : ∀ n < 64, isB64 (b64char n) = true := by decide

theorem isB64_61 : isB64 61 = false := by decide

theorem isB64_10 : isB64 10 = false := by decide

theorem quad1 (b0 b1 : Nat) (h1 : b1 < 256) :
    b0 / 4 * 4 + (b0 % 4 * 16 + b1 / 16) / 16 = b0 := by
  have e : (b0 % 4 * 16 + b1 / 16) / 16 = b0 % 4 := by
    rw [Nat.mul_comm (b0 % 4) 16, Nat.mul_add_div (by norm_num)]
    have e2 : b1 / 16 / 16 = 0 := Nat.div_eq_of_lt (by omega)
    omega
  omega

theorem quad2 (b0 b1 b2 : Nat) (h1 : b1 < 256) (h2 : b2 < 256) :
    (b0 % 4 * 16 + b1 / 16) % 16 * 16 + (b1 % 16 * 4 + b2 / 64) / 4 = b1 := by
  have e1 : (b0 % 4 * 16 + b1 / 16) % 16 = b1 / 16 := by
    rw [Nat.mul_comm (b0 % 4) 16, Nat.mul_add_mod]
    exact Nat.mod_eq_of_lt (by omega)
  have e2 : (b1 % 16 * 4 + b2 / 64) / 4 = b1 % 16 := by
    rw [Nat.mul_comm (b1 % 16) 4, Nat.mul_add_div (by norm_num)]
    have e3 : b2 / 64 / 4 = 0 := Nat.div_eq_of_lt (by omega)
    omega
  rw [e1, e2]
  omega

theorem quad3 (b1 b2 : Nat) (h2 : b2 < 256) :
    (b1 % 16 * 4 + b2 / 64) % 4 * 64 + b2 % 64 = b2 := by
  have e1 : (b1 % 16 * 4 + b2 / 64) % 4 = b2 / 64 := by
    rw [Nat.mul_comm (b1 % 16) 4, Nat.mul_add_mod]
    exact Nat.mod_eq_of_lt (by omega)
  rw [e1]
  omega

theorem pad1 (b0 : Nat) : b0 / 4 * 4 + b0 % 4 * 16 / 16 = b0 := by
  have e : b0 % 4 * 16 / 16 = b0 % 4 := Nat.mul_div_cancel _ (by norm_num)
  omega

theorem pad2 (b0 b1 : Nat) (h1 : b1 < 256) :
    (b0 % 4 * 16 + b1 / 16) % 16 * 16 + b1 % 16 * 4 / 4 = b1 := by
  have e1 : (b0 % 4 * 16 + b1 / 16) % 16 = b1 / 16 := by
    rw [Nat.mul_comm (b0 % 4) 16, Nat.mul_add_mod]
    exact Nat.mod_eq_of_lt (by omega)
  have e2 : b1 % 16 * 4 / 4 = b1 % 16 := Nat.mul_div_cancel _ (by norm_num)
  rw [e1, e2]
  omega

/-- Decoding the alphabet characters of the padded encoding recovers the
original bytes. -/
theorem decQuads_filter_b2aCore :
    ∀ bs : List Nat, (∀ b ∈ bs, b < 256) →
      decQuads ((b2aCore bs).filter fun c => isB64 c) = bs
  | [], _ => by simp [b2aCore, decQuads]
  | [b0], h => by
    have h0 : b0 < 256 := h b0 (by simp)
    have e0 : b0 / 4 < 64 := by omega
    have e1 : b0 % 4 * 16 < 64 := by omega
    simp only [b2aCore, List.filter, isB64_b64char _ e0, isB64_b64char _ e1, isB64_61,
      decQuads, b64val_b64char _ e0, b64val_b64char _ e1]
    simp only [List.cons.injEq]
    exact ⟨pad1 b0, trivial⟩
  | [b0, b1], h => by
    have h0 : b0 < 256 := h b0 (by simp)
    have h1 : b1 < 256 := h b1 (by simp)
    have e0 : b0 / 4 < 64 := by omega
    have e1 : b0 % 4 * 16 + b1 / 16 < 64 := by omega
    have e2 : b1 % 16 * 4 < 64 := by omega
    simp only [b2aCore, List.filter, isB64_b64char _ e0, isB64_b64char _ e1, isB64_b64char _ e2,
      isB64_61, decQuads, b64val_b64char _ e0, b64val_b64char _ e1, b64val_b64char _ e2]
    simp only [List.cons.injEq]
    exact ⟨quad1 b0 b1 h1, pad2 b0 b1 h1, trivial⟩
  | b0 :: b1 :: b2 :: b3 :: rest, h => by
    have h0 : b0 < 256 := h b0 (by simp)
    have h1 : b1 < 256 := h b1 (by simp)
    have h2 : b2 < 256 := h b2 (by simp)
    have e0 : b0 / 4 < 64 := by omega
    have e1 : b0 % 4 * 16 + b1 / 16 < 64 := by omega
    have e2 : b1 % 16 * 4 + b2 / 64 < 64 := by omega
    have e3 : b2 % 64 < 64 := by omega
    have ih := decQuads_filter_b2aCore (b3 :: rest) fun b hb => h b (by simp [hb])
    simp only [b2aCore, List.filter, isB64_b64char _ e0, isB64_b64char _ e1, isB64_b64char _ e2,
      isB64_b64char _ e3, decQuads, b64val_b64char _ e0, b64val_b64char _ e1,
      b64val_b64char _ e2, b64val_b64char _ e3]
    rw [ih]
    simp only [List.cons.injEq]
    exact ⟨quad1 b0 b1 h1, quad2 b0 b1 b2 h1 h2, quad3 b1 b2 h2, trivial⟩
  | [b0, b1, b2], h => by
    have h0 : b0 < 256 := h b0 (by simp)
    have h1 : b1 < 256 := h b1 (by simp)
    have h2 : b2 < 256 := h b2 (by simp)
    have e0 : b0 / 4 < 64 := by omega
    have e1 : b0 % 4 * 16 + b1 / 16 < 64 := by omega
    have e2 : b1 % 16 * 4 + b2 / 64 < 64 := by omega
    have e3 : b2 % 64 < 64 := by omega
    simp only [b2aCore, List.filter, isB64_b64char _ e0, isB64_b64char _ e1, isB64_b64char _ e2,
      isB64_b64char _ e3, decQuads, b64val_b64char _ e0, b64val_b64char _ e1,
      b64val_b64char _ e2, b64val_b64char _ e3]
    simp only [List.cons.injEq]
    exact ⟨quad1 b0 b1 h1, quad2 b0 b1 b2 h1 h2, quad3 b1 b2 h2, trivial⟩

/-- `a2b_base64 (b2a_base64 bs) = bs` for byte lists: base64-armoring
followed by decoding is the identity. -/
theorem a2b_b2a (bs : List Nat) (h : ∀ b ∈ bs, b < 256) :
    a2b_base64 (b2a_base64 bs) = bs := by
  unfold a2b_base64 b2a_base64
  rw [List.filter_append]
  have h10 : List.filter (fun c => isB64 c) [10] = [] := by decide
  rw [h10, List.append_nil]
  exact decQuads_filter_b2aCore bs h

theorem readlinesAux_flatten :
    ∀ cs acc : List Char, (readlinesAux cs acc).flatten = acc.reverse ++ cs
  | [], acc => by
    simp only [readlinesAux]
    split
    · simp_all [List.isEmpty_iff]
    · simp
  | c :: rest, acc => by
    simp only [readlinesAux]
    split
    · rename_i h
      simp [readlinesAux_flatten rest [], h]
    · simp [readlinesAux_flatten rest (c :: acc)]

/-- Reading a file as lines and joining them back is the identity. -/
theorem readlines_flatten (cs : List Char) : joinAll (readlines cs) = cs := by
  simpa [joinAll, readlines] using readlinesAux_flatten cs []

/-- Writing from position 0 without truncation leaves no stale tail when
the new text is at least as long as the old one. -/
theorem overwrite_of_le (old new : List Char) (h : old.length ≤ new.length) :
    overwrite old new = new := by
  simp [overwrite, List.drop_eq_nil_of_le h]

theorem joinAll_pyInsert (ls : List (List Char)) (i : Nat) (x : List Char) :
    joinAll (pyInsert ls i x) = joinAll (ls.take i) ++ x ++ joinAll (ls.drop i) := by
  simp [pyInsert, joinAll]

theorem joinAll_take_drop (ls : List (List Char)) (i : Nat) :
    joinAll (ls.take i) ++ joinAll (ls.drop i) = joinAll ls := by
  rw [joinAll, joinAll, joinAll, ← List.flatten_append, List.take_append_drop]

theorem joinAll_pyInsert_length (ls : List (List Char)) (i : Nat) (x : List Char) :
    (joinAll (pyInsert ls i x)).length = (joinAll ls).length + x.length := by
  rw [joinAll_pyInsert]
  have h2 : (joinAll (ls.take i)).length + (joinAll (ls.drop i)).length =
      (joinAll ls).length := by
    rw [← List.length_append, joinAll_take_drop]
  simp only [List.length_append]
  omega

/-- A key just written by `setA` is found with its new value. -/
theorem lookup_setA_self {α : Type} (xs : List (String × α)) (k : String) (v : α) :
    List.lookup k (setA xs k v) = some v := by
  induction xs with
  | nil => simp [setA, List.lookup]
  | cons p rest ih =>
    obtain ⟨k', v'⟩ := p
    simp only [setA]
    split
    · simp [List.lookup]
    · rename_i h
      have hne : (k == k') = false := by
        simp only [beq_eq_false_iff_ne, ne_eq]
        exact fun hk => h hk.symm
      simp [List.lookup, hne, ih]

/-- The generated-output patch never touches `main.ts` files. -/
theorem patch_cdktf_json_files (cfg : Config) (st : MState) (p e a : String) :
    (patch_cdktf_json cfg st p e a).1.files = st.files := by
  unfold patch_cdktf_json
  dsimp only
  repeat' split
  all_goals rfl

/-- The generated-output patch never changes the already-patched set. -/
theorem patch_cdktf_json_mains (cfg : Config) (st : MState) (p e a : String) :
    (patch_cdktf_json cfg st p e a).1.migrated_cdktf_mains = st.migrated_cdktf_mains := by
  unfold patch_cdktf_json
  dsimp only
  repeat' split
  all_goals rfl

/-- A name without exactly three dash-separated segments fails the
three-way destructuring. -/
theorem unpack3_eq_none (name : String) (h : (pySplitDash name).length ≠ 3) :
    unpack3 name = none := by
  unfold unpack3
  rcases hl : pySplitDash name with _ | ⟨a, _ | ⟨b, _ | ⟨c, _ | ⟨d, t⟩⟩⟩⟩ <;> simp_all

/-- A workspace that is filtered out, or whose (name, environment) pair
already exists in the target backend, produces only its informational
message: no creation, no state, no variables, no lock, no patch. -/
theorem step_workspace_noop (cfg : Config) (src : SourceData) (st : MState) (w : TFWorkspace)
    (h : passes_filters w = true →
      ∃ envId, List.lookup (lastDashSegment w.attributes.name) cfg.environments = some envId ∧
        workspace_exists_check st w.attributes.name envId = true) :
    step_workspace cfg src st w = Except.ok { st with log := st.log ++ skip_messages w } := by
  unfold step_workspace skip_messages
  cases hv : versionSkip w.attributes.terraform_version with
  | true => simp [hv, addLog]
  | false =>
    cases hl : w.attributes.locked with
    | true => simp [hv, hl]
    | false =>
      cases hr : w.attributes.resource_count == 0 with
      | true => simp [hv, hl, hr, addLog]
      | false =>
        obtain ⟨envId, henv, hex⟩ := h (by simp [passes_filters, hv, hl, hr])
        simp only [hv, hl, hr]
        rw [henv]
        simp [try_block, hex, addLog]

/-- Claim C1: a second run against an unchanged source and target is a
no-op for every workspace whose (name, environment) pair already exists:
it only reports the informational messages (in particular "... already
exists" for each eligible workspace), performs no workspace creation, no
state or variable transfer, no lock and no artifact patch, and leaves the
target-side resource set exactly as the first run left it. -/
theorem c1_idempotent_rerun :
    ∀ (cfg : Config) (src : SourceData) (ws : List TFWorkspace) (st : MState),
    (∀ w ∈ ws, passes_filters w = true →
      ∃ envId, List.lookup (lastDashSegment w.attributes.name) cfg.environments = some envId ∧
        workspace_exists_check st w.attributes.name envId = true) →
    migrate_workspaces cfg src ws st =
      Except.ok { st with log := st.log ++ (ws.map skip_messages).flatten }
  | cfg, src, [], st, h => by simp [migrate_workspaces]
  | cfg, src, w :: rest, st, h => by
    have hstep := step_workspace_noop cfg src st w (h w (by simp))
    have hrest := c1_idempotent_rerun cfg src rest { st with log := st.log ++ skip_messages w }
      (fun w' hw' hp => h w' (List.mem_cons_of_mem _ hw') hp)
    simp only [migrate_workspaces, hstep, hrest]
    simp [List.append_assoc]

/-- Witness for C1: with `alpha-prod-a1` already present in `env-1`, the
run only reports "already exists" and changes nothing else. -/
theorem c1_witness :
    migrate_workspaces cfgM srcM [w1] stC1 =
      Except.ok { stC1 with log := ["Workspace alpha-prod-a1 already exists"] } := by
  rw [c1_idempotent_rerun cfgM srcM [w1] stC1 (by
    intro w hw hp
    simp only [List.mem_singleton] at hw
    subst hw
    exact ⟨"env-1", by decide, by decide⟩)]
  rfl

/-- An exception inside the `try:` block is caught at the granularity of
the single workspace: the step returns normally with a failure message
naming the workspace and the error text. -/
theorem step_workspace_failed (cfg : Config) (src : SourceData) (st : MState) (w : TFWorkspace)
    (envId : String) (st1 : MState) (e : String)
    (hp : passes_filters w = true)
    (henv : List.lookup (lastDashSegment w.attributes.name) cfg.environments = some envId)
    (htry : try_block cfg src st w (workspace_exists_check st w.attributes.name envId) =
      (st1, some e)) :
    step_workspace cfg src st w =
      Except.ok (addLog st1 ("Failed to migrate workspace " ++ w.attributes.name ++ ": " ++ e)) := by
  simp only [passes_filters, Bool.and_eq_true, Bool.not_eq_true'] at hp
  obtain ⟨⟨hv, hl⟩, hr⟩ := hp
  unfold step_workspace
  simp only [hv, hl, hr, Bool.false_eq_true, if_false]
  rw [henv]
  dsimp only
  rw [htry]

/-- A `try:` block that completes without raising leaves exactly its
resulting state. -/
theorem step_workspace_ok (cfg : Config) (src : SourceData) (st : MState) (w : TFWorkspace)
    (envId : String) (st1 : MState)
    (hp : passes_filters w = true)
    (henv : List.lookup (lastDashSegment w.attributes.name) cfg.environments = some envId)
    (htry : try_block cfg src st w (workspace_exists_check st w.attributes.name envId) =
      (st1, none)) :
    step_workspace cfg src st w = Except.ok st1 := by
  simp only [passes_filters, Bool.and_eq_true, Bool.not_eq_true'] at hp
  obtain ⟨⟨hv, hl⟩, hr⟩ := hp
  unfold step_workspace
  simp only [hv, hl, hr, Bool.false_eq_true, if_false]
  rw [henv]
  dsimp only
  rw [htry]

/-- Claim C2: per-workspace failure isolation.  First, a workspace whose
step returns normally lets the loop continue with the remaining
workspaces; second, any exception inside the `try:` block (steps 3 to 7)
yields a normal step result carrying the per-workspace failure message;
third, in the concrete batch `[w1, w2, w3]` where `w2` raises during
variable migration (missing secret `BAD`), workspaces `w1` and `w3` are
fully migrated (created, state, variables, lock, artifact patch) and the
only failure reported is for `w2`. -/
theorem c2_failure_isolation :
    (∀ (cfg : Config) (src : SourceData) (st st' : MState) (w : TFWorkspace)
        (rest : List TFWorkspace),
      step_workspace cfg src st w = Except.ok st' →
      migrate_workspaces cfg src (w :: rest) st = migrate_workspaces cfg src rest st') ∧
    (∀ (cfg : Config) (src : SourceData) (st : MState) (w : TFWorkspace) (envId : String)
        (st1 : MState) (e : String),
      passes_filters w = true →
      List.lookup (lastDashSegment w.attributes.name) cfg.environments = some envId →
      try_block cfg src st w (workspace_exists_check st w.attributes.name envId) =
        (st1, some e) →
      step_workspace cfg src st w =
        Except.ok (addLog st1 ("Failed to migrate workspace " ++ w.attributes.name ++ ": " ++ e))) ∧
    runOk (migrate_workspaces cfgM srcM [w1, w2, w3] st0) (fun st =>
      (st.scalrWorkspaces.map fun sw => (sw.id, sw.name, sw.env_id)) ==
        [("ws-0", "alpha-prod-a1", "env-1"), ("ws-1", "beta-prod-a1", "env-1"),
          ("ws-2", "gamma-stage-a2", "env-2")] &&
      (st.created_states.map fun sv => (sv.workspace_id, sv.serial, sv.lineage)) ==
        [("ws-0", 7, "lin-1"), ("ws-1", 1, "lin-2"), ("ws-2", 3, "lin-3")] &&
      (st.created_vars.map fun v => (v.workspace_id, v.key, v.value, v.sensitive)) ==
        [("ws-0", "REGION", "us-east-1", false), ("ws-0", "DB_PASS", "s3cret", true),
          ("ws-2", "SIZE", "m5", false)] &&
      st.tfc_locks == [("tfc-1", "Locked by migrator"), ("tfc-3", "Locked by migrator")] &&
      st.migrated_cdktf_mains == ["alpha", "gamma"] &&
      st.log == ["Failed to migrate workspace beta-prod-a1: KeyError: BAD"]) = true :=
  ⟨fun cfg src st st' w rest h => by simp only [migrate_workspaces, h],
   fun cfg src st w envId st1 e hp henv htry =>
     step_workspace_failed cfg src st w envId st1 e hp henv htry,
   by decide⟩

/-- Witness for C2: a workspace whose creation raises (version check)
produces exactly the per-workspace failure message and the loop keeps
going. -/
theorem c2_witness :
    migrate_workspaces cfgM srcM [wT] emptySt =
      Except.ok (addLog emptySt
        ("Failed to migrate workspace p-e-a1: Unsupported Terraform version: ~>1.5.7")) := by
  have h2 := c2_failure_isolation.2.1 cfgM srcM emptySt wT "env-1" emptySt
    "Unsupported Terraform version: ~>1.5.7" (by decide) (by decide) (by rfl)
  have h1 := c2_failure_isolation.1 cfgM srcM emptySt _ wT [] h2
  rw [h1]
  rfl

/-- Counterexample for C3: version `1.5.10` is numerically greater than
the `1.5.7` ceiling, yet the code's comparison
(`replace("~>", "") > "1.5.7"`, a Python string comparison) does not skip
it: in a concrete run the `1.5.10` workspace is fully migrated with no
skip message at all. -/
theorem c3_counterexample :
    numericDottedGt "1.5.10" "1.5.7" = true ∧
    versionSkip "1.5.10" = false ∧
    pyStrGt "1.5.10" "1.5.7" = false ∧
    runOk (migrate_workspaces cfgM srcM [w310] st0) (fun st =>
      (st.scalrWorkspaces.map fun sw => sw.name) == ["alpha-prod-a1"] &&
      (st.created_workspaces.map fun r => r.terraform_version) == ["1.5.10"] &&
      st.log == []) = true :=
  ⟨by decide, by decide, by decide, by decide⟩

/-- Claim C3 as amended: both version checks compare strings
lexicographically against the ceiling `"1.5.7"`.  A workspace whose
version (after stripping `~>`) compares greater is skipped with only the
informational message; the version exactly at the ceiling passes both
comparisons; the second check at creation uses the same ceiling but does
not strip the `~>` marker and raises for any lexicographically greater
version string. -/
theorem c3_amended_lexicographic :
    (∀ (cfg : Config) (src : SourceData) (st : MState) (w : TFWorkspace),
      versionSkip w.attributes.terraform_version = true →
      step_workspace cfg src st w = Except.ok (addLog st ("Skipping workspace " ++
        w.attributes.name ++ " with unsupported Terraform version " ++
        w.attributes.terraform_version))) ∧
    (∀ (cfg : Config) (w : TFWorkspace) (envId : String),
      List.lookup (lastDashSegment w.attributes.name) cfg.environments = some envId →
      pyStrGt w.attributes.terraform_version "1.5.7" = true →
      create_workspace cfg w =
        Except.error ("Unsupported Terraform version: " ++ w.attributes.terraform_version)) ∧
    (versionSkip "1.5.7" = false ∧ pyStrGt "1.5.7" "1.5.7" = false ∧
      versionSkip "1.5.8" = true ∧ versionSkip "~>1.5.8" = true ∧
      versionSkip "1.5.10" = false) := by
  refine ⟨?_, ?_, by decide, by decide, by decide, by decide, by decide⟩
  · intro cfg src st w hv
    unfold step_workspace
    simp [hv, addLog]
  · intro cfg w envId henv hgt
    unfold create_workspace
    dsimp only
    rw [henv]
    simp [hgt]

/-- Witness for C3 (amended): a `1.5.8` workspace is skipped with only
the message, and a `~>1.5.7` workspace fails the unstripped check at
creation. -/
theorem c3_witness :
    step_workspace cfgM srcM emptySt
        { w310 with attributes := { w310.attributes with terraform_version := "1.5.8" } } =
      Except.ok (addLog emptySt
        "Skipping workspace alpha-prod-a1 with unsupported Terraform version 1.5.8") ∧
    create_workspace cfgM wT = Except.error "Unsupported Terraform version: ~>1.5.7" := by
  constructor
  · rw [c3_amended_lexicographic.1 cfgM srcM emptySt _ (by decide)]
    rfl
  · rw [c3_amended_lexicographic.2.1 cfgM wT "env-1" (by decide) (by decide)]
    rfl

/-- Claim C4 (the code, against the spec's requirement): the environment
lookup of the existence query runs before the `try:` block, so one
unresolvable account suffix (`aX`) raises an uncaught `KeyError` that
aborts the whole run — the following workspace `w1` is never processed. -/
theorem c4_unresolvable_account_crashes_run :
    List.lookup "aX" cfgM.environments = none ∧
    migrate_workspaces cfgM srcM [wX, w1] st0 = Except.error "KeyError: aX" :=
  ⟨by decide, by rfl⟩

/-- Claim C10: a workspace name without exactly three dash-separated
segments makes the artifact-patch step raise (the three-way unpacking
fails), so such a workspace never reaches terminal success — while the
earlier pipeline steps, which only use the last segment, accept it: in
the concrete run the four-segment workspace is created and locked, but
ends with the unpack failure message and its files untouched. -/
theorem c10_three_segment_requirement :
    (∀ (cfg : Config) (st : MState) (name : String), (pySplitDash name).length ≠ 3 →
      migrate_cdktf cfg st name = (st, some ("ValueError: cannot unpack " ++ name))) ∧
    runOk (migrate_workspaces cfgM srcM [w4seg] st0) (fun st =>
      (st.scalrWorkspaces.map fun sw => sw.name) == ["alpha-extra-prod-a1"] &&
      st.tfc_locks == [("tfc-4", "Locked by migrator")] &&
      decide (st.files = st0.files) &&
      st.migrated_cdktf_mains == [] &&
      st.log == ["Failed to migrate workspace alpha-extra-prod-a1: ValueError: cannot unpack alpha-extra-prod-a1"]) = true := by
  constructor
  · intro cfg st name h
    unfold migrate_cdktf
    rw [unpack3_eq_none name h]
  · decide

/-- Witness for C10: a two-segment name fails the unpacking. -/
theorem c10_witness :
    migrate_cdktf cfgM emptySt "a-b" = (emptySt, some "ValueError: cannot unpack a-b") := by
  rw [c10_three_segment_requirement.1 cfgM emptySt "a-b" (by decide)]
  rfl

/-- Claim C5: sensitive-variable substitution.  The secret store is
fetched exactly once when at least one variable is sensitive and never
otherwise; when every sensitive key resolves, the created variables are
exactly the source variables in order, non-sensitive ones verbatim (key,
value, category, sensitivity, description) and sensitive ones carrying
the secret-store value for their key; the loop raises exactly when some
sensitive key is absent from the resolved secret set; and concretely a
workspace with a missing secret fails with a per-workspace message while
the run continues (one fetch in total: one for the failing workspace,
none for the sensitive-free one). -/
theorem c5_sensitive_substitution :
    (∀ (src : SourceData) (workspace_id workspace_name : String),
      (migrate_variables src workspace_id workspace_name).2.1 =
        if (lookupD src.vars workspace_name []).any (fun v => v.sensitive) then 1 else 0) ∧
    (∀ (workspace_id : String) (secrets : List (String × String)) (tfc_vars : List TFVar),
      (∀ v ∈ tfc_vars, v.sensitive = true → (List.lookup v.key secrets).isSome = true) →
      create_vars_loop workspace_id secrets tfc_vars =
        (tfc_vars.map fun v =>
          { key := v.key
            value := if v.sensitive then (List.lookup v.key secrets).getD "" else v.value
            category := v.category
            sensitive := v.sensitive
            description := v.description
            workspace_id := workspace_id }, none)) ∧
    (∀ (workspace_id : String) (secrets : List (String × String)) (tfc_vars : List TFVar),
      (create_vars_loop workspace_id secrets tfc_vars).2 = none ↔
        ∀ v ∈ tfc_vars, v.sensitive = true → (List.lookup v.key secrets).isSome = true) ∧
    runOk (migrate_workspaces cfgM srcM [w2, w3] st0) (fun st =>
      (st.scalrWorkspaces.map fun sw => sw.name) == ["beta-prod-a1", "gamma-stage-a2"] &&
      st.secret_fetches == 1 &&
      (st.created_vars.map fun v => v.key) == ["SIZE"] &&
      st.log == ["Failed to migrate workspace beta-prod-a1: KeyError: BAD"]) = true := by
  refine ⟨fun src wid wn => rfl, ?_, ?_, by decide⟩
  · intro workspace_id secrets tfc_vars h
    induction tfc_vars with
    | nil => simp [create_vars_loop]
    | cons v rest ih =>
      have hrest := ih fun u hu hs => h u (List.mem_cons_of_mem _ hu) hs
      cases hv : v.sensitive with
      | false => simp [create_vars_loop, hv, hrest]
      | true =>
        obtain ⟨sv, hsv⟩ := Option.isSome_iff_exists.mp (h v (by simp) hv)
        simp [create_vars_loop, hv, hsv, hrest]
  · intro workspace_id secrets tfc_vars
    induction tfc_vars with
    | nil => simp [create_vars_loop]
    | cons v rest ih =>
      cases hv : v.sensitive with
      | false => simp [create_vars_loop, hv, ih]
      | true =>
        cases hl : List.lookup v.key secrets with
        | none =>
          constructor
          · intro hcontra
            simp [create_vars_loop, hv, hl] at hcontra
          · intro hall
            have hx := hall v (by simp) hv
            rw [hl] at hx
            simp at hx
        | some sv =>
          simp only [create_vars_loop, hv, hl, if_true]
          rw [ih, List.forall_mem_cons]
          simp [hv, hl]

/-- Witness for C5: with the fixture secrets, `alpha-prod-a1`'s loop
copies the plain variable verbatim and substitutes the secret value. -/
theorem c5_witness :
    create_vars_loop "ws-0" [("DB_PASS", "s3cret")] (lookupD srcM.vars "alpha-prod-a1" []) =
      ([VarReq.mk "REGION" "us-east-1" "terraform" false (some "region") "ws-0",
        VarReq.mk "DB_PASS" "s3cret" "env" true none "ws-0"], none) := by
  rw [c5_sensitive_substitution.2.1 "ws-0" [("DB_PASS", "s3cret")]
    (lookupD srcM.vars "alpha-prod-a1" []) (by decide)]
  rfl

/-- Claim C6: state-transfer fidelity.  The submitted state version
carries the source serial unchanged, the lineage parsed from the payload
unchanged, the base64-armored copy of exactly the raw payload (decoding
the transferred text yields the raw bytes back), and an md5 computed over
bytes equal to both the decoded transferred payload and the raw payload
(base64 encode then decode is the identity on bytes). -/
theorem c6_state_transfer_fidelity (sv : StateVersionSrc) (workspace_id : String)
    (h : ∀ b ∈ sv.payload, b < 256) :
    (create_state sv workspace_id).serial = sv.serial ∧
    (create_state sv workspace_id).lineage = sv.lineage ∧
    (create_state sv workspace_id).state = b2a_base64 sv.payload ∧
    a2b_base64 (create_state sv workspace_id).state = sv.payload ∧
    (create_state sv workspace_id).md5 =
      Digest.md5 (a2b_base64 (create_state sv workspace_id).state) ∧
    (create_state sv workspace_id).md5 = Digest.md5 sv.payload := by
  have hr := a2b_b2a sv.payload h
  unfold create_state
  exact ⟨rfl, rfl, rfl, hr, rfl, by simp [hr]⟩

/-- Witness for C6 at a concrete five-byte payload. -/
theorem c6_witness :
    a2b_base64 (create_state (StateVersionSrc.mk 7 [1, 2, 3, 4, 255] "lin-1") "ws-0").state =
      [1, 2, 3, 4, 255] ∧
    (create_state (StateVersionSrc.mk 7 [1, 2, 3, 4, 255] "lin-1") "ws-0").serial = 7 :=
  ⟨(c6_state_transfer_fidelity (StateVersionSrc.mk 7 [1, 2, 3, 4, 255] "lin-1") "ws-0"
      (by decide)).2.2.2.1,
   (c6_state_transfer_fidelity (StateVersionSrc.mk 7 [1, 2, 3, 4, 255] "lin-1") "ws-0"
      (by decide)).1⟩

/-- Claim C7: conditional VCS binding.  When creation succeeds, the
request carries a `vcs-repo` block (repository identifier, branch pinned
to `main`, dry runs disabled, trigger prefix set to the working
directory) and the `vcs-provider` relationship exactly when the source
workspace has a VCS repository, and neither otherwise. -/
theorem c7_conditional_vcs_binding (cfg : Config) (w : TFWorkspace) (envId : String)
    (henv : List.lookup (lastDashSegment w.attributes.name) cfg.environments = some envId)
    (hver : pyStrGt w.attributes.terraform_version "1.5.7" = false) :
    ∃ req, create_workspace cfg w = Except.ok req ∧
      (w.attributes.vcs_repo = none → req.vcs_repo = none ∧ req.vcs_provider = none) ∧
      (∀ repo, w.attributes.vcs_repo = some repo →
        req.vcs_repo = some (VcsRepoReq.mk repo.display_identifier "main" false
          [w.attributes.working_directory]) ∧
        req.vcs_provider = some cfg.vcs_id) := by
  unfold create_workspace
  dsimp only
  rw [henv]
  simp only [hver, Bool.false_eq_true, if_false]
  refine ⟨_, rfl, ?_, ?_⟩
  · intro hn
    simp [hn]
  · intro repo hrep
    simp [hrep]

/-- Witness for C7: `alpha-prod-a1` is VCS-bound, so its creation request
carries the repo block and the provider relationship. -/
theorem c7_witness :
    ((create_workspace cfgM w1).toOption.map fun req => (req.vcs_repo, req.vcs_provider)) =
      some (some (VcsRepoReq.mk "org/alpha" "main" false ["infra"]), some "vcs-1") := by
  obtain ⟨req, hreq, hnone, hsome⟩ :=
    c7_conditional_vcs_binding cfgM w1 "env-1" (by decide) (by decide)
  obtain ⟨hrep, hprov⟩ := hsome (VcsRepo.mk "org/alpha") rfl
  rw [hreq]
  simp [Except.toOption, hrep, hprov]
  exact ⟨rfl, rfl⟩

/-- Claim C8: build-script injection happens at most once per project per
run.  A project already in `migrated_cdktf_mains` never has its `main.ts`
touched again; the first migration of a project rewrites `main.ts` to the
original lines with the injected fragment inserted immediately before the
`app.synth()` marker line and records the project in the set; a missing
marker line fails that workspace; and in the concrete run patching two
stacks of project `alpha`, the second patch leaves every file unchanged
and `main.ts` holds exactly one inserted fragment. -/
theorem c8_build_script_once :
    (∀ (cfg : Config) (st : MState) (name p e a : String),
      unpack3 name = some (p, e, a) → p ∈ st.migrated_cdktf_mains →
      (migrate_cdktf cfg st name).1.files = st.files ∧
      (migrate_cdktf cfg st name).1.migrated_cdktf_mains = st.migrated_cdktf_mains) ∧
    (∀ (cfg : Config) (st : MState) (name p e a dir : String) (content : List Char) (i : Nat),
      unpack3 name = some (p, e, a) → p ∉ st.migrated_cdktf_mains →
      List.lookup p cfg.cdktf_paths = some dir →
      List.lookup (dir ++ "/main.ts") st.files = some content →
      markerIndex (readlines content) = some i →
      (migrate_cdktf cfg st name).1.files =
        setA st.files (dir ++ "/main.ts")
          (joinAll ((readlines content).take i) ++ inject_js cfg ++
            joinAll ((readlines content).drop i)) ∧
      p ∈ (migrate_cdktf cfg st name).1.migrated_cdktf_mains) ∧
    (∀ (cfg : Config) (st : MState) (name p e a dir : String) (content : List Char),
      unpack3 name = some (p, e, a) → p ∉ st.migrated_cdktf_mains →
      List.lookup p cfg.cdktf_paths = some dir →
      List.lookup (dir ++ "/main.ts") st.files = some content →
      markerIndex (readlines content) = none →
      migrate_cdktf cfg st name = (st, some "ValueError: app.synth() is not in list")) ∧
    ((migrate_cdktf cfgM (migrate_cdktf cfgM st8 "alpha-prod-a1").1 "alpha-stage-a2").1.files =
        (migrate_cdktf cfgM st8 "alpha-prod-a1").1.files ∧
      List.lookup "/r/projects/alpha/main.ts" (migrate_cdktf cfgM st8 "alpha-prod-a1").1.files =
        some (joinAll ((readlines mainTsA).take 1) ++ inject_js cfgM ++
          joinAll ((readlines mainTsA).drop 1))) := by
  refine ⟨?_, ?_, ?_, by decide, by decide⟩
  · intro cfg st name p e a hu hmem
    unfold migrate_cdktf
    rw [hu]
    dsimp only
    rw [if_pos hmem]
    exact ⟨patch_cdktf_json_files cfg st p e a, patch_cdktf_json_mains cfg st p e a⟩
  · intro cfg st name p e a dir content i hu hmem hdir hfile hmark
    have hlen : content.length ≤ (joinAll (pyInsert (readlines content) i (inject_js cfg))).length := by
      rw [joinAll_pyInsert_length, readlines_flatten]
      omega
    unfold migrate_cdktf
    rw [hu]
    dsimp only
    rw [if_neg hmem, hdir]
    dsimp only
    rw [hfile]
    dsimp only
    rw [hmark]
    dsimp only
    rw [overwrite_of_le _ _ hlen, joinAll_pyInsert]
    constructor
    · rw [patch_cdktf_json_files]
    · rw [patch_cdktf_json_mains]
      simp
  · intro cfg st name p e a dir content hu hmem hdir hfile hmark
    unfold migrate_cdktf
    rw [hu]
    dsimp only
    rw [if_neg hmem, hdir]
    dsimp only
    rw [hfile]
    dsimp only
    rw [hmark]

/-- Witness for C8: the already-patched project leaves `main.ts` alone; a
`main.ts` without the marker fails; a first patch inserts at the marker. -/
theorem c8_witness :
    (migrate_cdktf cfgM stC9 "alpha-prod-a1").1.files = stC9.files ∧
    migrate_cdktf cfgM { emptySt with files := [("/r/projects/alpha/main.ts", "nothing
".data)] }
        "alpha-prod-a1" =
      ({ emptySt with files := [("/r/projects/alpha/main.ts", "nothing
".data)] },
        some "ValueError: app.synth() is not in list") ∧
    (migrate_cdktf cfgM st8 "alpha-prod-a1").1.files =
      setA st8.files "/r/projects/alpha/main.ts"
        (joinAll ((readlines mainTsA).take 1) ++ inject_js cfgM ++
          joinAll ((readlines mainTsA).drop 1)) := by
  refine ⟨?_, ?_, ?_⟩
  · exact (c8_build_script_once.1 cfgM stC9 "alpha-prod-a1" "alpha" "prod" "a1" (by rfl)
      (by decide)).1
  · exact c8_build_script_once.2.2.1 cfgM _ "alpha-prod-a1" "alpha" "prod" "a1"
      "/r/projects/alpha" ("nothing
".data) (by rfl) (by decide) (by rfl) (by rfl) (by rfl)
  · exact (c8_build_script_once.2.1 cfgM st8 "alpha-prod-a1" "alpha" "prod" "a1"
      "/r/projects/alpha" mainTsA 1 (by rfl) (by decide) (by rfl) (by rfl) (by rfl)).1

/-- Claim C9 as amended: the patched `cdk.tf.json` content is the
two-space serialization of the patched document written from position 0
over the previous content; it equals the serialization exactly only when
the previous content is not longer than the new serialization. -/
theorem c9_overwrite_semantics (cfg : Config) (st : MState) (p e a dir : String)
    (content : List Char) (cdktf : JValue) (st' : MState)
    (hdir : List.lookup p cfg.cdktf_paths = some dir)
    (hfile : List.lookup (dir ++ "/cdktf.out/stacks/" ++ e ++ "-" ++ a ++ "/cdk.tf.json")
      st.json_files = some (content, cdktf))
    (hrun : patch_cdktf_json cfg st p e a = (st', none)) :
    ∃ d3, List.lookup (dir ++ "/cdktf.out/stacks/" ++ e ++ "-" ++ a ++ "/cdk.tf.json")
        st'.json_files = some (overwrite content (dumpsV 0 d3).data, d3) ∧
      (content.length ≤ (dumpsV 0 d3).data.length →
        overwrite content (dumpsV 0 d3).data = (dumpsV 0 d3).data) := by
  unfold patch_cdktf_json at hrun
  rw [hdir] at hrun
  dsimp only at hrun
  rw [hfile] at hrun
  dsimp only at hrun
  split at hrun
  · simp at hrun
  · split at hrun
    · simp at hrun
    · split at hrun
      · simp at hrun
      · split at hrun
        · simp at hrun
        · rename_i d3 hd3
          rw [Prod.ext_iff] at hrun
          obtain ⟨hst, -⟩ := hrun
          subst hst
          exact ⟨d3, by rw [lookup_setA_self], fun h => overwrite_of_le _ _ h⟩

/-- Counterexample for C9: with a 200-character pre-migration
organization name, the patched serialization is shorter than the previous
content, so the write without truncation leaves stale trailing bytes and
the on-disk content does not equal the serialization. -/
theorem c9_counterexample :
    migrate_cdktf cfgM stC9 "alpha-prod-a1" =
      ({ stC9 with
          json_files :=
            setA stC9.json_files c9path
              (overwrite c9old (dumpsV 0 c9docPatched).data, c9docPatched) }, none) ∧
    overwrite c9old (dumpsV 0 c9docPatched).data ≠ (dumpsV 0 c9docPatched).data :=
  ⟨by rfl, by decide⟩

/-- Witness for C9 (amended): on an empty previous content the patch
succeeds and the hypotheses of the overwrite characterization hold. -/
theorem c9_witness :
    (patch_cdktf_json cfgM { emptySt with json_files := [(c9path, ([], c9doc))] }
      "alpha" "prod" "a1").2 = none := by
  obtain ⟨d3, hlook, himp⟩ := c9_overwrite_semantics cfgM
    { emptySt with json_files := [(c9path, ([], c9doc))] } "alpha" "prod" "a1"
    "/r/projects/alpha" [] c9doc
    (patch_cdktf_json cfgM { emptySt with json_files := [(c9path, ([], c9doc))] }
      "alpha" "prod" "a1").1
    (by rfl) (by rfl) (by rfl)
  rfl

end Migrate
